import Mathlib

/-!
Verification of the Markdown-to-DOCX/PDF converter
(`src/05_源文件/convert_to_docx_pdf.py`).

The embedding models Python strings as `List Char`.  The two conversion
functions `convert_to_docx` and `convert_to_pdf` are translated line by
line from the source: each splits the input on newlines, strips every
line, and dispatches on the same first-match-wins prefix tests as the
Python `if`/`elif` chains.  The Python regular-expression substitutions
(`re.sub` with the non-greedy patterns for bold, italic, code spans and
links, plus the tag stripper `<.*?>` and the numbered-item prefix
`^\d+\.\s*`) are realised by an explicit leftmost-shortest matcher
(`gsub`); `\d` and `\s` are modelled as their ASCII subsets, which covers
every behaviour the specification mentions.

The reportlab `Paragraph` constructor invoked in the plain-paragraph
branch of `convert_to_pdf` sits inside a `try`/`except`; it is the only
construction whose failure the source handles, and it is modelled by an
oracle `ok : List Char → Bool` saying which texts construct successfully.
An uncaught failure is an `Except.error`, mirroring the exception
propagating out of the conversion function.  Constructor calls in the
other branches have no handler in the source and are modelled as total.
-/

set_option maxRecDepth 8000

/-- Characters of a string literal, the `List Char` view of Python strings. -/
def strL (s : String) : List Char := s.data

/-- ASCII subset of the whitespace recognised by Python `str.strip` and `\s`. -/
def isPySpace (c : Char) : Bool :=
  c = ' ' || c = '\t' || c = '\n' || c = '\r' || c = '\x0b' || c = '\x0c'

/-- Python `str.strip()`: drop whitespace from both ends. -/
def pyStrip (l : List Char) : List Char :=
  ((l.dropWhile isPySpace).reverse.dropWhile isPySpace).reverse

/-- Python `str.startswith`: `beginsWith p s` is true when `p` is a prefix of `s`. -/
def beginsWith : List Char → List Char → Bool
  | [], _ => true
  | _ :: _, [] => false
  | p :: ps, c :: cs => if p = c then beginsWith ps cs else false

/-- Python `str.split(sep)` for a one-character separator: every occurrence
splits, empty parts are kept, and the empty string yields `[[]]`. -/
def pySplit (sep : Char) : List Char → List (List Char)
  | [] => [[]]
  | c :: cs =>
    let r := pySplit sep cs
    if c = sep then [] :: r else (c :: r.headD []) :: r.tail

/-- Split at the first occurrence of `pat`: `some (before, after)` where
`before ++ pat ++ after` is the input, or `none` when `pat` never occurs.
This is the search a non-greedy `(.*?)` followed by the literal `pat`
performs. -/
def findSub (pat : List Char) : List Char → Option (List Char × List Char)
  | [] => none
  | c :: cs =>
    if beginsWith pat (c :: cs) then some ([], (c :: cs).drop pat.length)
    else
      match findSub pat cs with
      | some (b, a) => some (c :: b, a)
      | none => none

/-- One pass of Python `re.sub`: scan left to right, on a match emit the
replacement and continue after the match, otherwise keep the character.
`fuel` bounds the recursion; every matcher used below consumes at least
one character, so `fuel = length` never runs out. -/
def gsubF (m : List Char → Option (List Char × List Char)) :
    Nat → List Char → List Char
  | _, [] => []
  | 0, s => s
  | fuel + 1, c :: cs =>
    match m (c :: cs) with
    | some (rep, rest) => rep ++ gsubF m fuel rest
    | none => c :: gsubF m fuel cs

/-- Global substitution over the whole string. -/
def gsub (m : List Char → Option (List Char × List Char)) (s : List Char) :
    List Char :=
  gsubF m s.length s

/-- Matcher for the pattern `opn(.*?)cls` at the head of the input: the
group runs to the first occurrence of `cls` after `opn` (non-greedy), and
the match is replaced by `wrap group`. -/
def matchDelim (opn cls : List Char) (wrap : List Char → List Char)
    (s : List Char) : Option (List Char × List Char) :=
  if beginsWith opn s then
    match findSub cls (s.drop opn.length) with
    | some (g, rest) => some (wrap g, rest)
    | none => none
  else none

/-- Matcher for the link pattern at the head of the input: `[`, a first
group running to the first `](`, a second group running to the first `)`.
If the first `](` has no `)` after it, no later one has either, so the
whole match fails — exactly the backtracking behaviour of the Python
pattern.  The replacement keeps only the display text, `wrap g1`. -/
def matchLink (wrap : List Char → List Char) :
    List Char → Option (List Char × List Char)
  | '[' :: rest =>
    match findSub [']', '('] rest with
    | some (g1, rest2) =>
      match findSub [')'] rest2 with
      | some (_, rest3) => some (wrap g1, rest3)
      | none => none
    | none => none
  | _ => none

/-- The backquote character, delimiter of code spans. -/
def btick : Char := '\x60'

/-- Bold substitution over a whole line. -/
def subBold (wrap : List Char → List Char) (s : List Char) : List Char :=
  gsub (matchDelim ['*', '*'] ['*', '*'] wrap) s

/-- Italic substitution over a whole line. -/
def subItalic (wrap : List Char → List Char) (s : List Char) : List Char :=
  gsub (matchDelim ['*'] ['*'] wrap) s

/-- Code-span substitution over a whole line. -/
def subCode (wrap : List Char → List Char) (s : List Char) : List Char :=
  gsub (matchDelim [btick] [btick] wrap) s

/-- Link substitution over a whole line. -/
def subLink (wrap : List Char → List Char) (s : List Char) : List Char :=
  gsub (matchLink wrap) s

/-- PlainTarget inline formatting, source lines 84-88: the four
substitutions bold, italic, code, link in that order, each dropping the
markers and keeping only the span text. -/
def fmtPlain (l : List Char) : List Char :=
  subLink id (subCode id (subItalic id (subBold id l)))

/-- Bold tag of the paginated backend. -/
def tagB (g : List Char) : List Char := strL "<b>" ++ g ++ strL "</b>"

/-- Italic tag of the paginated backend. -/
def tagI (g : List Char) : List Char := strL "<i>" ++ g ++ strL "</i>"

/-- Monospace tag of the paginated backend. -/
def tagCourier (g : List Char) : List Char :=
  strL "<font face=\"Courier\">" ++ g ++ strL "</font>"

/-- Underline tag of the paginated backend. -/
def tagU (g : List Char) : List Char := strL "<u>" ++ g ++ strL "</u>"

/-- MarkupTarget inline formatting, source lines 209-213: the same four
substitutions, wrapping each span in a presentational tag. -/
def fmtMarkup (l : List Char) : List Char :=
  subLink tagU (subCode tagCourier (subItalic tagI (subBold tagB l)))

/-- The fallback tag stripper of source line 221, `re.sub` with `<.*?>`. -/
def stripTags (l : List Char) : List Char :=
  gsub (matchDelim ['<'] ['>'] (fun _ => [])) l

/-- Guard of `re.match` with `^\d+\.`: one or more leading digits followed
immediately by a period. -/
def numGuard (l : List Char) : Bool :=
  match l with
  | [] => false
  | c :: _ => c.isDigit && beginsWith ['.'] (l.dropWhile Char.isDigit)

/-- Effect of `re.sub` with `^\d+\.\s*`: remove the leading digits, the
period, and any whitespace after it. -/
def numStrip (l : List Char) : List Char :=
  ((l.dropWhile Char.isDigit).drop 1).dropWhile isPySpace

/-- Elements appended to the python-docx document. -/
inductive DocxElem : Type
  | heading (level : Nat) (text : List Char)
  | para (text : List Char)
  | bullet (text : List Char)
  | numbered (text : List Char)
deriving DecidableEq

/-- Cells of a table-row line, source line 61: split on every pipe, keep
`[1:-1]` — drop the first and the last part unconditionally — and strip
each remaining cell. -/
def tableCells (l : List Char) : List (List Char) :=
  ((pySplit '|' l).tail.dropLast).map pyStrip

/-- Join the cells back with the three-character separator of line 63. -/
def joinBar (cells : List (List Char)) : List Char :=
  List.intercalate (strL " | ") cells

/-- Dispatch of `convert_to_docx` on one already-stripped line, the
`if`/`elif` chain of source lines 45-91 in its exact order. -/
def docxLineCore (l : List Char) : List DocxElem :=
  if l = [] then []
  else if beginsWith ['#', ' '] l then [.heading 1 (l.drop 2)]
  else if beginsWith ['#', '#', ' '] l then [.heading 2 (l.drop 3)]
  else if beginsWith ['#', '#', '#', ' '] l then [.heading 3 (l.drop 4)]
  else if beginsWith ['#', '#', '#', '#', ' '] l then [.heading 4 (l.drop 5)]
  else if beginsWith ['|'] l then [.para (joinBar (tableCells l))]
  else if beginsWith ['-', ' '] l || beginsWith ['*', ' '] l then
    [.bullet (l.drop 2)]
  else if numGuard l then [.numbered (numStrip l)]
  else if beginsWith [btick, btick, btick] l then []
  else if beginsWith ['-', '-', '-'] l || beginsWith ['*', '*', '*'] l then
    [.para (List.replicate 80 '─')]
  else
    let t := fmtPlain l
    if t = [] then [] else [.para t]

/-- One raw line of the word-processor renderer: strip, then dispatch. -/
def docxLine (raw : List Char) : List DocxElem := docxLineCore (pyStrip raw)

/-- The word-processor renderer over a list of raw lines: the loop of
source lines 42-91, appending per line into the document. -/
def docxDocL : List (List Char) → List DocxElem
  | [] => []
  | l :: ls => docxLine l ++ docxDocL ls

/-- `convert_to_docx`: split the Markdown text on newlines and render. -/
def convert_to_docx (markdown : List Char) : List DocxElem :=
  docxDocL (pySplit '\n' markdown)

/-- Flowables appended to the reportlab story.  Spacer heights are in
tenths of an inch: the source uses 0.1, 0.2 and 0.3 inch. -/
inductive Flowable : Type
  | heading (level : Nat) (text : List Char)
  | para (text : List Char)
  | spacer (tenths : Nat)
deriving DecidableEq

deriving instance DecidableEq for Except

/-- Heading payload of levels 3 and 4 in the paginated renderer, source
line 177: the part after the first space, or empty when there is none. -/
def afterFirstSpace (l : List Char) : List Char :=
  match findSub [' '] l with
  | some (_, rest) => rest
  | none => []

/-- Dispatch of `convert_to_pdf` on one already-stripped line, the
`if`/`elif` chain of source lines 163-222 in its exact order.  `ok` is
the oracle for the guarded paragraph construction of lines 216-222: when
the first construction fails and the tag-stripped retry fails too, the
exception escapes the loop, modelled as `Except.error`. -/
def pdfLineCore (ok : List Char → Bool) (l : List Char) :
    Except Unit (List Flowable) :=
  if l = [] then .ok [.spacer 2]
  else if beginsWith ['#', ' '] l then .ok [.heading 1 (l.drop 2), .spacer 3]
  else if beginsWith ['#', '#', ' '] l then
    .ok [.heading 2 (l.drop 3), .spacer 2]
  else if beginsWith ['#', '#', '#', ' '] l
      || beginsWith ['#', '#', '#', '#', ' '] l then
    .ok [.para (tagB (afterFirstSpace l)), .spacer 1]
  else if beginsWith ['-', '-', '-'] l || beginsWith ['*', '*', '*'] l then
    .ok [.spacer 1, .para (List.replicate 80 '_'), .spacer 1]
  else if beginsWith [btick, btick, btick] l then .ok []
  else if beginsWith ['|'] l && l.contains '-' then .ok []
  else if beginsWith ['|'] l then .ok []
  else if beginsWith ['-', ' '] l || beginsWith ['*', ' '] l then
    .ok [.para ('•' :: ' ' :: l.drop 2)]
  else if numGuard l then .ok [.para l]
  else
    let t := fmtMarkup l
    if t = [] then .ok []
    else if ok t then .ok [.para t]
    else if ok (stripTags t) then .ok [.para (stripTags t)]
    else .error ()

/-- One raw line of the paginated renderer: strip, then dispatch. -/
def pdfLine (ok : List Char → Bool) (raw : List Char) :
    Except Unit (List Flowable) :=
  pdfLineCore ok (pyStrip raw)

/-- The paginated renderer over a list of raw lines: the loop of source
lines 160-222.  An uncaught construction failure aborts the whole
conversion, exactly as the Python exception would. -/
def pdfDocL (ok : List Char → Bool) : List (List Char) →
    Except Unit (List Flowable)
  | [] => .ok []
  | l :: ls =>
    match pdfLine ok l with
    | .error e => .error e
    | .ok f =>
      match pdfDocL ok ls with
      | .error e => .error e
      | .ok r => .ok (f ++ r)

/-- `convert_to_pdf`: split the Markdown text on newlines and render. -/
def convert_to_pdf (ok : List Char → Bool) (markdown : List Char) :
    Except Unit (List Flowable) :=
  pdfDocL ok (pySplit '\n' markdown)

/-- The stripped lines that fall through every guard of the paginated
renderer down to the plain-paragraph branch. -/
def reachesParaBranch (l : List Char) : Bool :=
  !decide (l = [])
  && !beginsWith ['#', ' '] l
  && !beginsWith ['#', '#', ' '] l
  && !beginsWith ['#', '#', '#', ' '] l
  && !beginsWith ['#', '#', '#', '#', ' '] l
  && !beginsWith ['-', '-', '-'] l
  && !beginsWith ['*', '*', '*'] l
  && !beginsWith [btick, btick, btick] l
  && !beginsWith ['|'] l
  && !beginsWith ['-', ' '] l
  && !beginsWith ['*', ' '] l
  && !numGuard l

/-! ## Helper lemmas -/

theorem exists_of_beginsWith : ∀ (p l : List Char), beginsWith p l = true →
    ∃ r, l = p ++ r
  | [], l, _ => ⟨l, rfl⟩
  | p :: ps, [], h => by simp [beginsWith] at h
  | p :: ps, c :: cs, h => by
    by_cases hpc : p = c
    · subst hpc
      simp only [beginsWith, if_pos rfl] at h
      obtain ⟨r, hr⟩ := exists_of_beginsWith ps cs h
      exact ⟨r, by simp [hr]⟩
    · simp [beginsWith, hpc] at h

theorem beginsWith_cons_ne {a c : Char} (p s : List Char) (h : a ≠ c) :
    beginsWith (a :: p) (c :: s) = false := by
  simp [beginsWith, h]

theorem dropWhile_digits (rest : List Char) : ∀ (ds : List Char),
    (∀ c ∈ ds, c.isDigit = true) →
    List.dropWhile Char.isDigit (ds ++ '.' :: rest) = '.' :: rest
  | [], _ => by simp [List.dropWhile]
  | d :: ds, h => by
    have hd : d.isDigit = true := h d (by simp)
    simp only [List.cons_append, List.dropWhile_cons_of_pos hd]
    exact dropWhile_digits rest ds (fun c hc => h c (by simp [hc]))

theorem pySplit_sepFree {sep : Char} : ∀ (b : List Char), sep ∉ b →
    pySplit sep b = [b]
  | [], _ => rfl
  | c :: cs, h => by
    have hcs : sep ∉ cs := fun hm => h (by simp [hm])
    have hc : ¬ c = sep := fun hm => h (by simp [hm])
    simp [pySplit, hc, pySplit_sepFree cs hcs]

theorem pySplit_append {sep : Char} (r : List Char) : ∀ (a : List Char),
    sep ∉ a → pySplit sep (a ++ sep :: r) = a :: pySplit sep r
  | [], _ => by simp [pySplit]
  | c :: cs, h => by
    have hcs : sep ∉ cs := fun hm => h (by simp [hm])
    have hc : ¬ c = sep := fun hm => h (by simp [hm])
    simp [pySplit, hc, pySplit_append r cs hcs]

theorem docxDocL_append : ∀ (xs ys : List (List Char)),
    docxDocL (xs ++ ys) = docxDocL xs ++ docxDocL ys
  | [], ys => rfl
  | x :: xs, ys => by
    simp [docxDocL, docxDocL_append xs ys]

theorem pdfDocL_append (ok : List Char → Bool) : ∀ (xs ys : List (List Char)),
    pdfDocL ok (xs ++ ys) =
      (match pdfDocL ok xs with
       | .error e => .error e
       | .ok f =>
         match pdfDocL ok ys with
         | .error e => .error e
         | .ok r => .ok (f ++ r))
  | [], ys => by
    cases hys : pdfDocL ok ys <;> simp [pdfDocL, hys]
  | x :: xs, ys => by
    have ih := pdfDocL_append ok xs ys
    simp only [List.cons_append, pdfDocL, List.append_eq]
    rw [ih]
    cases pdfLine ok x <;> cases pdfDocL ok xs <;> cases pdfDocL ok ys <;>
      simp [List.append_assoc]

theorem pdfDocL_skip {ok : List Char → Bool} {f : List Char}
    (ls : List (List Char)) (h : pdfLine ok f = .ok []) :
    pdfDocL ok (f :: ls) = pdfDocL ok ls := by
  simp only [pdfDocL, h]
  cases pdfDocL ok ls <;> simp

theorem numGuard_not_digit (c : Char) (h : c.isDigit = false)
    (xs : List Char) : numGuard (c :: xs) = false := by
  simp [numGuard, h]

theorem fence_docx (f : List Char)
    (h : beginsWith [btick, btick, btick] (pyStrip f) = true) :
    docxLine f = [] := by
  obtain ⟨r, hr⟩ := exists_of_beginsWith _ _ h
  rw [docxLine, hr]
  simp [docxLineCore, beginsWith, btick, numGuard_not_digit '\x60' (by decide)]

theorem fence_pdf (ok : List Char → Bool) (f : List Char)
    (h : beginsWith [btick, btick, btick] (pyStrip f) = true) :
    pdfLine ok f = .ok [] := by
  obtain ⟨r, hr⟩ := exists_of_beginsWith _ _ h
  rw [pdfLine, hr]
  simp [pdfLineCore, beginsWith, btick, numGuard_not_digit '\x60' (by decide)]

/-! ## The claims -/

/-- Claim C1 (corrected, counterexample): on the input
`"# Title\n\nSome **bold** text."` the paginated conversion does not
produce exactly a heading-1 flowable, one spacer and one paragraph: the
heading-1 branch appends its own trailing spacer, so the story has four
flowables, not three. -/
theorem c1_pdf_exactly_three_refuted :
    ¬ ∃ a s b, convert_to_pdf (fun _ => true)
        (strL "# Title\n\nSome **bold** text.") =
      .ok [Flowable.heading 1 a, Flowable.spacer s, Flowable.para b] := by
  rintro ⟨a, s, b, h⟩
  rw [(by decide : convert_to_pdf (fun _ => true)
        (strL "# Title\n\nSome **bold** text.") =
      .ok [Flowable.heading 1 (strL "Title"), Flowable.spacer 3,
        Flowable.spacer 2, Flowable.para (strL "Some <b>bold</b> text.")])] at h
  simp at h

/-- Claim C1 (corrected, amended): the word-processor conversion of
`"# Title\n\nSome **bold** text."` yields exactly one level-1 heading
"Title" followed by one paragraph "Some bold text."; the paginated
conversion yields a heading-1 flowable, its trailing spacer (0.3 inch),
one spacer for the blank line (0.2 inch), and one paragraph flowable with
bold tags around "bold". -/
theorem c1_end_to_end_amended :
    convert_to_docx (strL "# Title\n\nSome **bold** text.") =
      [DocxElem.heading 1 (strL "Title"), DocxElem.para (strL "Some bold text.")]
    ∧ convert_to_pdf (fun _ => true) (strL "# Title\n\nSome **bold** text.") =
      .ok [Flowable.heading 1 (strL "Title"), Flowable.spacer 3,
        Flowable.spacer 2, Flowable.para (strL "Some <b>bold</b> text.")] :=
  ⟨by decide, by decide⟩

/-- Claim C2: every trimmed line of `n` hashes (1 ≤ n ≤ 4), one space and
a rest is classified by both renderers as a heading of level `n` whose
payload is exactly the rest — the markers and the following space are
excluded; in particular a `"## "` line is a level-2, never a level-1,
heading.  The paginated renderer renders levels 1 and 2 as styled heading
flowables with their trailing spacers, and levels 3 and 4 as a bold-tagged
paragraph. -/
theorem c2_heading_levels (ok : List Char → Bool) (n : Nat) (rest : List Char)
    (h1 : 1 ≤ n) (h2 : n ≤ 4)
    (htrim : pyStrip (List.replicate n '#' ++ ' ' :: rest) =
      List.replicate n '#' ++ ' ' :: rest) :
    docxLine (List.replicate n '#' ++ ' ' :: rest) = [DocxElem.heading n rest]
    ∧ pdfLine ok (List.replicate n '#' ++ ' ' :: rest) =
      (if n = 1 then .ok [Flowable.heading 1 rest, Flowable.spacer 3]
       else if n = 2 then .ok [Flowable.heading 2 rest, Flowable.spacer 2]
       else .ok [Flowable.para (tagB rest), Flowable.spacer 1]) := by
  interval_cases n <;>
    (simp only [List.replicate_succ, List.replicate_zero, List.cons_append,
       List.nil_append] at htrim
     refine ⟨?_, ?_⟩ <;>
       simp [docxLine, pdfLine, htrim, docxLineCore, pdfLineCore, beginsWith,
         afterFirstSpace, findSub, btick, numGuard_not_digit '#' (by decide)])

/-- Witness for C2 at the line `"## Sub"`. -/
theorem c2_heading_levels_witness :
    (1 ≤ 2 ∧ 2 ≤ 4
      ∧ pyStrip (List.replicate 2 '#' ++ ' ' :: strL "Sub") =
          List.replicate 2 '#' ++ ' ' :: strL "Sub")
    ∧ (docxLine (List.replicate 2 '#' ++ ' ' :: strL "Sub") =
        [DocxElem.heading 2 (strL "Sub")]
      ∧ pdfLine (fun _ => true) (List.replicate 2 '#' ++ ' ' :: strL "Sub") =
        (if 2 = 1 then .ok [Flowable.heading 1 (strL "Sub"), Flowable.spacer 3]
         else if 2 = 2 then
           .ok [Flowable.heading 2 (strL "Sub"), Flowable.spacer 2]
         else .ok [Flowable.para (tagB (strL "Sub")), Flowable.spacer 1])) :=
  ⟨⟨by decide, by decide, by decide⟩,
    c2_heading_levels (fun _ => true) 2 (strL "Sub")
      (by decide) (by decide) (by decide)⟩

/-- Helper shared by the C3 and C10 arguments: a trimmed line of digits,
a period and a rest is a numbered item whose word-processor payload is
the rest after leading whitespace, verbatim — the inline substitutions
are never applied to it. -/
theorem docx_numbered_raw (d : Char) (ds rest : List Char)
    (hd : d.isDigit = true) (hds : ∀ c ∈ ds, c.isDigit = true)
    (htrim : pyStrip (d :: ds ++ '.' :: rest) = d :: ds ++ '.' :: rest) :
    docxLine (d :: ds ++ '.' :: rest) =
      [DocxElem.numbered (rest.dropWhile isPySpace)] := by
  have hne : ∀ a : Char, a.isDigit = false → a ≠ d := by
    intro a ha he
    rw [he, hd] at ha
    exact Bool.noConfusion ha
  have gH := fun (p s : List Char) => beginsWith_cons_ne p s (hne '#' (by decide))
  have gP := fun (p s : List Char) => beginsWith_cons_ne p s (hne '|' (by decide))
  have gD := fun (p s : List Char) => beginsWith_cons_ne p s (hne '-' (by decide))
  have gS := fun (p s : List Char) => beginsWith_cons_ne p s (hne '*' (by decide))
  have gB := fun (p s : List Char) => beginsWith_cons_ne p s (hne btick (by decide))
  have hdw : List.dropWhile Char.isDigit (d :: (ds ++ '.' :: rest)) =
      '.' :: rest := by
    rw [List.dropWhile_cons_of_pos hd]
    exact dropWhile_digits rest ds hds
  have hng : numGuard (d :: (ds ++ '.' :: rest)) = true := by
    simp [numGuard, hd, hdw, beginsWith]
  rw [docxLine, htrim, List.cons_append]
  simp [docxLineCore, gH, gP, gD, gS, gB, hng, numStrip, hdw]

/-- Claim C3 (corrected, counterexample): neither renderer applies inline
formatting to list items.  The bullet line `"- **x**"` keeps its bold
markers verbatim — the word-processor item text is `"**x**"`, not `"x"`,
and the paginated paragraph is the raw `"• **x**"`, not the tag-converted
text — and the numbered line `"1. **x**"` likewise keeps its markers: the
word-processor item text is `"**x**"`, not the PlainTarget `"x"`. -/
theorem c3_list_formatting_refuted :
    docxLine (strL "- **x**") = [DocxElem.bullet (strL "**x**")]
    ∧ docxLine (strL "- **x**") ≠ [DocxElem.bullet (strL "x")]
    ∧ pdfLine (fun _ => true) (strL "- **x**") =
        .ok [Flowable.para (strL "• **x**")]
    ∧ pdfLine (fun _ => true) (strL "- **x**") ≠
        .ok [Flowable.para ('•' :: ' ' :: fmtMarkup (strL "**x**"))]
    ∧ docxLine (strL "1. **x**") = [DocxElem.numbered (strL "**x**")]
    ∧ docxLine (strL "1. **x**") ≠ [DocxElem.numbered (strL "x")] :=
  ⟨by decide, by decide, by decide, by decide, by decide, by decide⟩

/-- Claim C3 (corrected, amended): list items carry their raw payload.
For every bullet line the word-processor renderer appends the text after
the two-character marker unchanged and the paginated renderer prefixes
that same unchanged text with a bullet glyph; for every numbered line the
word-processor renderer appends the rest after the digit-period-whitespace
prefix unchanged — no inline formatting in any of these. -/
theorem c3_list_items_raw (ok : List Char → Bool) (rest : List Char)
    (d : Char) (ds nrest : List Char)
    (htd : pyStrip ('-' :: ' ' :: rest) = '-' :: ' ' :: rest)
    (hts : pyStrip ('*' :: ' ' :: rest) = '*' :: ' ' :: rest)
    (hd : d.isDigit = true) (hds : ∀ c ∈ ds, c.isDigit = true)
    (htn : pyStrip (d :: ds ++ '.' :: nrest) = d :: ds ++ '.' :: nrest) :
    (docxLine ('-' :: ' ' :: rest) = [DocxElem.bullet rest]
      ∧ docxLine ('*' :: ' ' :: rest) = [DocxElem.bullet rest]
      ∧ pdfLine ok ('-' :: ' ' :: rest) = .ok [Flowable.para ('•' :: ' ' :: rest)]
      ∧ pdfLine ok ('*' :: ' ' :: rest) = .ok [Flowable.para ('•' :: ' ' :: rest)])
    ∧ docxLine (d :: ds ++ '.' :: nrest) =
        [DocxElem.numbered (nrest.dropWhile isPySpace)] := by
  refine ⟨⟨?_, ?_, ?_, ?_⟩, docx_numbered_raw d ds nrest hd hds htn⟩ <;>
    simp [docxLine, pdfLine, htd, hts, docxLineCore, pdfLineCore, beginsWith,
      btick, numGuard_not_digit '-' (by decide),
      numGuard_not_digit '*' (by decide)]

/-- Witness for C3's amended theorem at the bullet payload `"**x**"` and
the numbered line `"1. **x**"`. -/
theorem c3_list_items_raw_witness :
    (pyStrip ('-' :: ' ' :: strL "**x**") = '-' :: ' ' :: strL "**x**"
      ∧ pyStrip ('*' :: ' ' :: strL "**x**") = '*' :: ' ' :: strL "**x**"
      ∧ ('1' : Char).isDigit = true
      ∧ (∀ c ∈ ([] : List Char), c.isDigit = true)
      ∧ pyStrip ('1' :: [] ++ '.' :: strL " **x**") =
          '1' :: [] ++ '.' :: strL " **x**")
    ∧ ((docxLine ('-' :: ' ' :: strL "**x**") = [DocxElem.bullet (strL "**x**")]
        ∧ docxLine ('*' :: ' ' :: strL "**x**") = [DocxElem.bullet (strL "**x**")]
        ∧ pdfLine (fun _ => true) ('-' :: ' ' :: strL "**x**") =
            .ok [Flowable.para ('•' :: ' ' :: strL "**x**")]
        ∧ pdfLine (fun _ => true) ('*' :: ' ' :: strL "**x**") =
            .ok [Flowable.para ('•' :: ' ' :: strL "**x**")])
      ∧ docxLine ('1' :: [] ++ '.' :: strL " **x**") =
          [DocxElem.numbered ((strL " **x**").dropWhile isPySpace)]) :=
  ⟨⟨by decide, by decide, by decide, by decide, by decide⟩,
    c3_list_items_raw (fun _ => true) (strL "**x**") '1' [] (strL " **x**")
      (by decide) (by decide) (by decide) (by decide) (by decide)⟩

/-- Claim C4: the table row `"| a | b |"` yields in the word-processor
renderer exactly one plain paragraph `"a | b"` (cells trimmed and joined,
no table object), and every line whose trimmed form starts with a pipe
yields no flowable at all in the paginated renderer. -/
theorem c4_table_row (ok : List Char → Bool) (raw : List Char)
    (h : beginsWith ['|'] (pyStrip raw) = true) :
    docxLine (strL "| a | b |") = [DocxElem.para (strL "a | b")]
    ∧ pdfLine ok raw = .ok [] := by
  refine ⟨by decide, ?_⟩
  obtain ⟨r, hr⟩ := exists_of_beginsWith _ _ h
  rw [pdfLine, hr]
  simp [pdfLineCore, beginsWith, btick]

/-- Witness for C4 at the lines `"| a | b |"` and `"| x |"`. -/
theorem c4_table_row_witness :
    beginsWith ['|'] (pyStrip (strL "| x |")) = true
    ∧ (docxLine (strL "| a | b |") = [DocxElem.para (strL "a | b")]
      ∧ pdfLine (fun _ => true) (strL "| x |") = .ok []) :=
  ⟨by decide, c4_table_row (fun _ => true) (strL "| x |") (by decide)⟩

/-- Claim C5: a line that is empty after trimming contributes nothing to
the word-processor document, while the paginated renderer appends exactly
one 0.2-inch spacer for it. -/
theorem c5_blank_line (ok : List Char → Bool) (raw : List Char)
    (h : pyStrip raw = []) :
    docxLine raw = [] ∧ pdfLine ok raw = .ok [Flowable.spacer 2] := by
  constructor
  · rw [docxLine, h]; rfl
  · rw [pdfLine, h]; rfl

/-- Witness for C5 at a line of spaces. -/
theorem c5_blank_line_witness :
    pyStrip (strL "   ") = []
    ∧ (docxLine (strL "   ") = []
      ∧ pdfLine (fun _ => true) (strL "   ") = .ok [Flowable.spacer 2]) :=
  ⟨by decide, c5_blank_line (fun _ => true) (strL "   ") (by decide)⟩

/-- Claim C6: PlainTarget formatting of
`"**bold** and *italic* and `code` and [text](url)"` strips all four span
kinds, discarding the link target, and yields exactly
`"bold and italic and code and text"`. -/
theorem c6_plain_format_example :
    fmtPlain (strL "**bold** and *italic* and `code` and [text](url)") =
      strL "bold and italic and code and text" := by decide

/-- Claim C7: line handling carries no state across lines.  Fence-marker
lines contribute nothing in either renderer, and the lines standing
between two fence markers are rendered exactly as they would be without
the markers — there is no toggle suppressing them. -/
theorem c7_fence_stateless (ok : List Char → Bool)
    (pre mid post : List (List Char)) (f1 f2 : List Char)
    (h1 : beginsWith [btick, btick, btick] (pyStrip f1) = true)
    (h2 : beginsWith [btick, btick, btick] (pyStrip f2) = true) :
    docxDocL (pre ++ f1 :: (mid ++ f2 :: post)) = docxDocL (pre ++ (mid ++ post))
    ∧ pdfDocL ok (pre ++ f1 :: (mid ++ f2 :: post)) =
        pdfDocL ok (pre ++ (mid ++ post)) := by
  constructor
  · simp [docxDocL_append, docxDocL, fence_docx f1 h1, fence_docx f2 h2]
  · have e1 : pdfDocL ok (mid ++ f2 :: post) = pdfDocL ok (mid ++ post) := by
      rw [pdfDocL_append ok mid (f2 :: post), pdfDocL_append ok mid post,
        pdfDocL_skip post (fence_pdf ok f2 h2)]
    have e2 : pdfDocL ok (f1 :: (mid ++ f2 :: post)) = pdfDocL ok (mid ++ post) := by
      rw [pdfDocL_skip _ (fence_pdf ok f1 h1), e1]
    rw [pdfDocL_append ok pre (f1 :: (mid ++ f2 :: post)),
      pdfDocL_append ok pre (mid ++ post), e2]

/-- Witness for C7: the lines a, ```, b, ``` python, c render exactly as
a, b, c. -/
theorem c7_fence_stateless_witness :
    (beginsWith [btick, btick, btick] (pyStrip (strL "```")) = true
      ∧ beginsWith [btick, btick, btick] (pyStrip (strL "``` python")) = true)
    ∧ (docxDocL ([strL "a"] ++ strL "```" ::
          ([strL "b"] ++ strL "``` python" :: [strL "c"])) =
        docxDocL ([strL "a"] ++ ([strL "b"] ++ [strL "c"]))
      ∧ pdfDocL (fun _ => true) ([strL "a"] ++ strL "```" ::
          ([strL "b"] ++ strL "``` python" :: [strL "c"])) =
        pdfDocL (fun _ => true) ([strL "a"] ++ ([strL "b"] ++ [strL "c"]))) :=
  ⟨⟨by decide, by decide⟩,
    c7_fence_stateless (fun _ => true) [strL "a"] [strL "b"] [strL "c"]
      (strL "```") (strL "``` python") (by decide) (by decide)⟩

/-- Claim C8 (corrected, counterexample): a failed paragraph construction
does abort the rest of the document when the tag-stripped retry fails
too.  With the oracle that rejects any text containing a raw `<` (the
behaviour of the markup parser on an unclosed tag), the line `"a <b"`
fails both attempts and the whole conversion errors, losing the following
line `"next"`, which on its own renders fine. -/
theorem c8_double_failure_aborts :
    pdfDocL (fun t => decide ('<' ∉ t)) [strL "a <b", strL "next"] = .error ()
    ∧ pdfDocL (fun t => decide ('<' ∉ t)) [strL "next"] =
        .ok [Flowable.para (strL "next")] :=
  ⟨by decide, by decide⟩

/-- Claim C8 (corrected, amended): for a paragraph-classified line whose
styled construction fails, the renderer strips all markup tags and
retries; when the retry succeeds the paragraph is appended with the plain
text and rendering of the rest of the document continues unaffected. -/
theorem c8_fallback_recovers (ok : List Char → Bool) (l : List Char)
    (ls : List (List Char)) (rest : List Flowable)
    (hp : reachesParaBranch (pyStrip l) = true)
    (hne : fmtMarkup (pyStrip l) ≠ [])
    (hfail : ok (fmtMarkup (pyStrip l)) = false)
    (hretry : ok (stripTags (fmtMarkup (pyStrip l))) = true)
    (hrest : pdfDocL ok ls = .ok rest) :
    pdfLine ok l = .ok [Flowable.para (stripTags (fmtMarkup (pyStrip l)))]
    ∧ pdfDocL ok (l :: ls) =
        .ok (Flowable.para (stripTags (fmtMarkup (pyStrip l))) :: rest) := by
  simp only [reachesParaBranch, Bool.and_eq_true, Bool.not_eq_true',
    decide_eq_false_iff_not, and_assoc] at hp
  obtain ⟨hnil, g1, g2, g3, g4, g5, g6, g7, g8, g9, g10, g11⟩ := hp
  have hline : pdfLine ok l =
      .ok [Flowable.para (stripTags (fmtMarkup (pyStrip l)))] := by
    rw [pdfLine]
    simp [pdfLineCore, hnil, g1, g2, g3, g4, g5, g6, g7, g8, g9, g10, g11,
      hne, hfail, hretry]
  refine ⟨hline, ?_⟩
  simp [pdfDocL, hline, hrest]

/-- Witness for C8's amended theorem: the line `"**x**"` becomes markup
text containing tags, the no-angle-bracket oracle rejects it, the
stripped retry succeeds, and the following line `"y"` still renders. -/
theorem c8_fallback_recovers_witness :
    (reachesParaBranch (pyStrip (strL "**x**")) = true
      ∧ fmtMarkup (pyStrip (strL "**x**")) ≠ []
      ∧ (fun t => decide ('<' ∉ t)) (fmtMarkup (pyStrip (strL "**x**"))) = false
      ∧ (fun t => decide ('<' ∉ t))
          (stripTags (fmtMarkup (pyStrip (strL "**x**")))) = true
      ∧ pdfDocL (fun t => decide ('<' ∉ t)) [strL "y"] =
          .ok [Flowable.para (strL "y")])
    ∧ (pdfLine (fun t => decide ('<' ∉ t)) (strL "**x**") =
        .ok [Flowable.para (stripTags (fmtMarkup (pyStrip (strL "**x**"))))]
      ∧ pdfDocL (fun t => decide ('<' ∉ t)) (strL "**x**" :: [strL "y"]) =
        .ok (Flowable.para (stripTags (fmtMarkup (pyStrip (strL "**x**")))) ::
          [Flowable.para (strL "y")])) :=
  ⟨⟨by decide, by decide, by decide, by decide, by decide⟩,
    c8_fallback_recovers (fun t => decide ('<' ∉ t)) (strL "**x**")
      [strL "y"] [Flowable.para (strL "y")]
      (by decide) (by decide) (by decide) (by decide) (by decide)⟩

/-- Claim C9: a table-row line with no trailing pipe loses its final
cell.  The split segments have their first and last entries discarded
unconditionally, so for a row `"|" ++ a ++ "|" ++ b` (no other pipes) only
the trimmed `a` survives; in particular `"| a | b"` renders as the
paragraph `"a"` and the non-empty trailing segment `"b"` is lost. -/
theorem c9_table_drops_last_cell (a b : List Char)
    (ha : '|' ∉ a) (hb : '|' ∉ b)
    (htrim : pyStrip ('|' :: (a ++ '|' :: b)) = '|' :: (a ++ '|' :: b)) :
    docxLine ('|' :: (a ++ '|' :: b)) = [DocxElem.para (pyStrip a)]
    ∧ docxLine (strL "| a | b") = [DocxElem.para (strL "a")] := by
  refine ⟨?_, by decide⟩
  rw [docxLine, htrim]
  have hsplit : pySplit '|' ('|' :: (a ++ '|' :: b)) = [[], a, b] := by
    simp [pySplit, pySplit_append b a ha, pySplit_sepFree b hb]
  simp [docxLineCore, beginsWith, tableCells, hsplit, joinBar,
    List.intercalate, List.intersperse]

/-- Witness for C9 at the row `"| a | b"`. -/
theorem c9_table_drops_last_cell_witness :
    ('|' ∉ strL " a " ∧ '|' ∉ strL " b"
      ∧ pyStrip ('|' :: (strL " a " ++ '|' :: strL " b")) =
          '|' :: (strL " a " ++ '|' :: strL " b"))
    ∧ (docxLine ('|' :: (strL " a " ++ '|' :: strL " b")) =
        [DocxElem.para (pyStrip (strL " a "))]
      ∧ docxLine (strL "| a | b") = [DocxElem.para (strL "a")]) :=
  ⟨⟨by decide, by decide, by decide⟩,
    c9_table_drops_last_cell (strL " a ") (strL " b")
      (by decide) (by decide) (by decide)⟩

/-- Claim C10: the numbered-item pattern needs no space after the period.
Every trimmed line of digits immediately followed by a period is a
numbered item: the word-processor renderer strips the digits, the period
and any following whitespace, while the paginated renderer renders the
whole raw line unchanged, digit-period prefix included. -/
theorem c10_numbered_item (ok : List Char → Bool) (d : Char)
    (ds rest : List Char)
    (hd : d.isDigit = true) (hds : ∀ c ∈ ds, c.isDigit = true)
    (htrim : pyStrip (d :: ds ++ '.' :: rest) = d :: ds ++ '.' :: rest) :
    docxLine (d :: ds ++ '.' :: rest) =
      [DocxElem.numbered (rest.dropWhile isPySpace)]
    ∧ pdfLine ok (d :: ds ++ '.' :: rest) =
        .ok [Flowable.para (d :: ds ++ '.' :: rest)] := by
  have hne : ∀ a : Char, a.isDigit = false → a ≠ d := by
    intro a ha he
    rw [he, hd] at ha
    exact Bool.noConfusion ha
  have gH := fun (p s : List Char) => beginsWith_cons_ne p s (hne '#' (by decide))
  have gP := fun (p s : List Char) => beginsWith_cons_ne p s (hne '|' (by decide))
  have gD := fun (p s : List Char) => beginsWith_cons_ne p s (hne '-' (by decide))
  have gS := fun (p s : List Char) => beginsWith_cons_ne p s (hne '*' (by decide))
  have gB := fun (p s : List Char) => beginsWith_cons_ne p s (hne btick (by decide))
  have hdw : List.dropWhile Char.isDigit (d :: (ds ++ '.' :: rest)) =
      '.' :: rest := by
    rw [List.dropWhile_cons_of_pos hd]
    exact dropWhile_digits rest ds hds
  have hng : numGuard (d :: (ds ++ '.' :: rest)) = true := by
    simp [numGuard, hd, hdw, beginsWith]
  constructor
  · rw [docxLine, htrim, List.cons_append]
    simp [docxLineCore, gH, gP, gD, gS, gB, hng, numStrip, hdw]
  · rw [pdfLine, htrim, List.cons_append]
    simp [pdfLineCore, gH, gP, gD, gS, gB, hng]

/-- Witness for C10 at the line `"3.14 is pi"`. -/
theorem c10_numbered_item_witness :
    (('3' : Char).isDigit = true
      ∧ (∀ c ∈ ([] : List Char), c.isDigit = true)
      ∧ pyStrip ('3' :: [] ++ '.' :: strL "14 is pi") =
          '3' :: [] ++ '.' :: strL "14 is pi")
    ∧ (docxLine ('3' :: [] ++ '.' :: strL "14 is pi") =
        [DocxElem.numbered ((strL "14 is pi").dropWhile isPySpace)]
      ∧ pdfLine (fun _ => true) ('3' :: [] ++ '.' :: strL "14 is pi") =
          .ok [Flowable.para ('3' :: [] ++ '.' :: strL "14 is pi")]) :=
  ⟨⟨by decide, by decide, by decide⟩,
    c10_numbered_item (fun _ => true) '3' [] (strL "14 is pi")
      (by decide) (by decide) (by decide)⟩
